import Mathlib

/-!
# Verification of the CAN-bus node/sub-module discovery and configuration engine

A shallow embedding of the node-discovery and configuration state engine of the
CAN-bus management server (`updateNodeDatabase`, `sendAckMsg`,
`recordNodeSnapshot`, `syncNodeToDatabase`, `handleNodeConfigUpdate`, the
`REQUEST_NODE_INTERVIEW` operator handler, and their helpers), together with
theorems settling the specification's testable properties.

Modelling conventions:
* JavaScript `undefined` is modelled with `Option`: a missing object property
  or an out-of-range array read is `none`.
* In bitwise contexts JavaScript coerces `undefined` to `0`
  (`ToInt32 NaN = 0`); in an ordering comparison any side that is
  `undefined`/`NaN` makes the comparison false.  Helpers `byteVal` and
  `jsGeSubOne` encode exactly those two rules.
* `Date.now()` is modelled by a strictly increasing tick counter threaded
  through every handler: each call yields the current tick and advances the
  clock.  Real wall-clock time is non-decreasing; strict monotonicity is the
  idealisation the specification's single-task total order relies on.
* Side effects (CAN sends, SQLite statements, SQLite transactions, WebSocket
  messages) are collected in an ordered `List Effect`.
* CAN arbitration-ID constants imported from `can_constants.js` (a file not
  part of the engine sources) are kept symbolic as the inductive `OutId`;
  no theorem depends on their numeric values.
-/

namespace CanBusApp

/-- A received CAN frame: arbitration id and payload bytes as delivered by the
socketcan driver (each entry is a byte, 0–255; theorems that depend on
byte-ness carry that hypothesis explicitly). -/
structure CanMsg where
  id : Nat
  data : List Nat
deriving Repr, DecidableEq

/-- Read payload byte `i`; `none` models the JavaScript `undefined` produced
by an out-of-range index. -/
def byteAt (data : List Nat) (i : Nat) : Option Nat :=
  data.get? i

/-- Read payload byte `i` in a bitwise context: JavaScript coerces an
`undefined` operand of `<<`, `|`, `&` to `0` (`ToInt32 NaN = 0`). -/
def byteVal (data : List Nat) (i : Nat) : Nat :=
  (data.get? i).getD 0

/-- JavaScript `a >= c - 1` where either side may be `undefined`: a comparison
with `NaN` is false. -/
def jsGeSubOne : Option Nat → Option Nat → Bool
  | some a, some c => decide ((a : Int) ≥ (c : Int) - 1)
  | _, _ => false

/-- JavaScript falsiness of a number-or-`undefined` value (`!x`): `undefined`
and `0` are falsy.  Used for the `if (!myNode.firstSeen)` check. -/
def jsFalsyOptNat : Option Nat → Bool
  | none => true
  | some n => decide (n = 0)

/-! ## Hex codec (`toHexString`, `hexStringToByteArray`) -/

/-- Lowercase hex digit character for `n < 16`, as produced by
`Number.prototype.toString(16)`. -/
def hexDigitChar (n : Nat) : Char :=
  if n < 10 then Char.ofNat (0x30 + n) else Char.ofNat (0x57 + n)

/-- `byte.toString(16).padStart(2, '0')` specialised to byte values
(`b < 256`, the only values the driver and codec feed it). -/
def byteToHexChars (b : Nat) : List Char :=
  [hexDigitChar (b / 16), hexDigitChar (b % 16)]

/-- `toHexString`: render a byte array as a lowercase hex string, two
characters per byte. -/
def toHexString (bytes : List Nat) : String :=
  ⟨bytes.flatMap byteToHexChars⟩

/-- Value of one hex digit character as accepted by `parseInt(_, 16)`. -/
def hexCharVal (c : Char) : Option Nat :=
  if '0' ≤ c ∧ c ≤ '9' then some (c.toNat - 0x30)
  else if 'a' ≤ c ∧ c ≤ 'f' then some (c.toNat - 0x57)
  else if 'A' ≤ c ∧ c ≤ 'F' then some (c.toNat - 0x37)
  else none

/-- `parseInt(chunk, 16)` on a 0–2 character chunk (the only shapes
`hexStringToByteArray` produces via `substr(i, 2)`): parsing stops at the
first invalid character, an invalid first character gives `NaN` (`none`). -/
def jsParseIntHexChunk : List Char → Option Nat
  | [c1, c2] =>
    match hexCharVal c1, hexCharVal c2 with
    | some a, some b => some (16 * a + b)
    | some a, none => some a
    | none, _ => none
  | [c1] => hexCharVal c1
  | _ => none

/-- Split a character list into chunks of two (a trailing odd character forms
a final 1-chunk), mirroring the `substr(i, 2)` loop. -/
def hexChunks : List Char → List (List Char)
  | [] => []
  | [c] => [[c]]
  | c1 :: c2 :: rest => [c1, c2] :: hexChunks rest

/-- `hexStringToByteArray`: parse a hex string two characters at a time;
`none` entries model the `NaN` that `parseInt` yields on invalid chunks. -/
def hexStringToByteArray (s : String) : List (Option Nat) :=
  (hexChunks s.data).map jsParseIntHexChunk

/-! ## Data model: sub-modules, nodes, the in-memory inventory -/

/-- A sub-module record.  A freshly created entry is
`{ rawConfig: [0, 0, 0] }`; every other property is absent (`none` / `false`)
until the interview assigns it.  `rawConfig` entries are `Option Nat` because
phase A copies `msg.data[5..7]`, which can be `undefined` on short payloads. -/
structure SubModule where
  rawConfig : List (Option Nat) := [some 0, some 0, some 0]
  subModIdx : Option Nat := none
  lastSeen : Option Nat := none
  introMsgId : Option Nat := none
  introMsgDlc : Option Nat := none
  dataMsgId : Option Nat := none
  dataMsgDlc : Option Nat := none
  saveState : Option Bool := none
  partAComplete : Bool := false
  partBComplete : Bool := false
deriving Repr, DecidableEq

/-- The sub-module map of a node.  JavaScript object keys are strings; the
numeric indices 0–7 are modelled as `some i` and the `"undefined"` key that
an absent `msg.data[4]` produces is modelled as `none`.  Insertion order is
preserved, updates keep position, new keys append — as in a JS object. -/
abbrev SubMap := List (Option Nat × SubModule)

/-- A node record.  Creation (`canDatabase[nodeString] = {...}`) populates
only `subModule = {}` and `lastSubModIdx = 0`; the node-intro handler assigns
the rest. -/
structure Node where
  subModule : SubMap := []
  lastSubModIdx : Option Nat := some 0
  nodeId : Option String := none
  lastSeen : Option Nat := none
  nodeTypeMsg : Option Nat := none
  nodeTypeDlc : Option Nat := none
  subModCnt : Option Nat := none
  configCrc : Option Nat := none
  firstSeen : Option Nat := none
  introComplete : Bool := false
deriving Repr, DecidableEq

/-- The in-memory inventory `canDatabase`, keyed by the node-id hex string. -/
abbrev NodeMap := List (String × Node)

/-- Key lookup in an insertion-ordered map. -/
def lookupKey {α β : Type} [DecidableEq α] : List (α × β) → α → Option β
  | [], _ => none
  | (k, w) :: rest, key => if k = key then some w else lookupKey rest key

/-- Key assignment in an insertion-ordered map: an existing key is updated in
place, a new key is appended — JS object semantics. -/
def setKey {α β : Type} [DecidableEq α] : List (α × β) → α → β → List (α × β)
  | [], key, v => [(key, v)]
  | (k, w) :: rest, key, v =>
    if k = key then (key, v) :: rest else (k, w) :: setKey rest key v

/-! ## Effects -/

/-- The columns of a `node_inventory` upsert (`insertInventory.run`). -/
structure InvRow where
  nodeTypeMsg : Option Nat
  subModCnt : Option Nat
  configCrc : Option Nat
  firstSeen : Option Nat
  lastSeen : Option Nat
  fullData : SubMap
deriving Repr, DecidableEq

/-- The columns of a `node_history` insert (`insertHistorySnapshot.run`). -/
structure HistRow where
  nodeTypeMsg : Option Nat
  subModCnt : Option Nat
  configCrc : Option Nat
  recordedAt : Nat
  fullData : SubMap
deriving Repr, DecidableEq

/-- A single SQLite write.  Audit rows keep the identifying columns; the
JSON-stringified old/new values are not inspected by any property. -/
inductive DbWrite
  | invUpsert (nodeId : String) (row : InvRow)
  | histInsert (nodeId : String) (row : HistRow)
  | auditInsert (nodeId : String) (subIdx : Option Nat) (field : String)
deriving Repr, DecidableEq

/-- Outbound CAN arbitration ids.  Modelled from the spec: the numeric values
live in `can_constants.js`, which is not among the engine sources; the
protocol distinguishes the messages only by which constant is used. -/
inductive OutId
  | ackIntro
  | reqNodeIntro
  | dataEpoch
  | cfgSubDataMsg
  | cfgSubRawData
deriving Repr, DecidableEq

/-- An observable side effect, in program order.  `dbStmt` is a single
auto-committed SQLite statement; `dbTx` is a `db.transaction` body. -/
inductive Effect
  | canSend (id : OutId) (data : List Nat)
  | dbStmt (w : DbWrite)
  | dbTx (ws : List DbWrite)
  | wsBroadcast (kind : String)
  | wsReply (kind : String) (nodeId : String) (subIdx : Option Nat) (success : Bool)
deriving Repr, DecidableEq

/-- A handler step: the updated inventory, the emitted effects, the advanced
clock. -/
structure Step where
  db : NodeMap
  effects : List Effect
  clock : Nat
deriving Repr, DecidableEq

/-! ## Frame codec and low-level send path -/

/-- The master's hard-coded 4-byte node id. -/
def myNodeId : List Nat := [0x19, 0x00, 0x00, 0x19]

/-- `Buffer.alloc(8)` followed by `writeUInt8` of up to eight values: missing
entries stay zero.  A `none` entry models a value `Buffer.writeUInt8` would
reject; no property path packs one. -/
def packBytes (arr : List (Option Nat)) : List Nat :=
  (List.range 8).map fun i =>
    match arr.get? i with
    | some (some v) => v
    | _ => 0

/-- `writeCanMessageBE`: pack the array into an 8-byte frame and send it. -/
def writeCanMessageBE (id : OutId) (arr : List (Option Nat)) : Effect :=
  .canSend id (packBytes arr)

/-- `getNodeId`: the first four payload bytes, or the master's id when the
payload is shorter than four bytes. -/
def getNodeId (msg : CanMsg) : List Nat :=
  if msg.data.length < 4 then myNodeId else msg.data.take 4

/-- `getMsgId` reads `msg.in`, a property that does not exist, so the guard
`msg.id >= 0x100 && undefined <= 0x7FF` is false for every message and the
function always returns `null`. -/
def getMsgId (_ : CanMsg) : Option Nat :=
  none

/-- JavaScript range test on a possibly-`null` value: comparisons treat
`null` as 0, but `getMsgId` only ever supplies `none`, for which
`null >= 0x700` is false. -/
def inRangeOpt : Option Nat → Nat → Nat → Bool
  | some v, lo, hi => decide (lo ≤ v) && decide (v ≤ hi)
  | none, _, _ => false

/-- `sendAckMsg`: guard, then emit an `ACK_INTRO` frame whose first four
bytes are the frame's node id. -/
def sendAckMsg (msg : CanMsg) : List Effect :=
  let messageId := getMsgId msg
  if decide (msg.data.length < 4) && !(inRangeOpt messageId 0x700 0x7FF) then []
  else [writeCanMessageBE .ackIntro ((getNodeId msg).map some)]

/-! ## Persistence helpers -/

/-- The `node_inventory` row `syncNodeToDatabase` builds from a node
(`full_data` is the stringified sub-module map). -/
def invRowOf (node : Node) : InvRow :=
  ⟨node.nodeTypeMsg, node.subModCnt, node.configCrc, node.firstSeen,
   node.lastSeen, node.subModule⟩

/-- `syncNodeToDatabase`: one auto-committed upsert of the current state. -/
def syncNodeToDatabase (nodeId : String) (node : Node) : Effect :=
  .dbStmt (.invUpsert nodeId (invRowOf node))

/-- `recordNodeSnapshot`: an inventory upsert followed by a history insert,
issued as two separate statements (no surrounding transaction).  The history
row's `recorded_at` is the `Date.now()` tick taken inside the call. -/
def recordNodeSnapshot (nodeId : String) (node : Node) (clock : Nat) :
    List Effect × Nat :=
  ([syncNodeToDatabase nodeId node,
    .dbStmt (.histInsert nodeId
      ⟨node.nodeTypeMsg, node.subModCnt, node.configCrc, clock, node.subModule⟩)],
   clock + 1)

/-! ## The interview state machine: `updateNodeDatabase` -/

/-- The node-intro branch on the pre-state node: `isKnownNode` records
whether the node already existed, `node0` is the existing record or the
freshly created `{ subModule: {}, lastSubModIdx: 0 }`. -/
def processNodeIntroCore (msg : CanMsg) (db : NodeMap) (clock : Nat)
    (nodeString : String) (isKnownNode : Bool) (node0 : Node) : Step :=
  let incomingCrc := ((byteVal msg.data 5) <<< 8) ||| ((byteVal msg.data 6) &&& 0xFF)
  let crcChanged :=
    isKnownNode && node0.configCrc.isSome && decide (node0.configCrc ≠ some incomingCrc)
  let snapEffs := if crcChanged then (recordNodeSnapshot nodeString node0 clock).1 else []
  let clock1 := if crcChanged then (recordNodeSnapshot nodeString node0 clock).2 else clock
  /- overwrite the record with the latest bus data -/
  let node1 : Node :=
    { node0 with
      nodeId := some nodeString
      lastSeen := some clock1
      nodeTypeMsg := some msg.id
      nodeTypeDlc := some 8
      subModCnt := byteAt msg.data 4
      configCrc := some incomingCrc }
  let clock2 := clock1 + 1
  let node2 :=
    if jsFalsyOptNat node1.firstSeen then { node1 with firstSeen := some clock2 }
    else node1
  let clock3 := if jsFalsyOptNat node1.firstSeen then clock2 + 1 else clock2
  if jsGeSubOne node2.lastSubModIdx node2.subModCnt then
    let node3 := { node2 with introComplete := true }
    ⟨setKey db nodeString node3,
     snapEffs ++ [syncNodeToDatabase nodeString node3], clock3⟩
  else
    ⟨setKey db nodeString node2, snapEffs ++ sendAckMsg msg, clock3⟩

/-- The node-intro branch (arbitration id in `0x780–0x7FF`): look up or
create the node, then run the core. -/
def processNodeIntro (msg : CanMsg) (db : NodeMap) (clock : Nat)
    (nodeString : String) : Step :=
  processNodeIntroCore msg db clock nodeString (lookupKey db nodeString).isSome
    ((lookupKey db nodeString).getD {})

/-- The sub-module-intro branch on the (existing) parent node. -/
def processSubIntroCore (msg : CanMsg) (db : NodeMap) (clock : Nat)
    (nodeString : String) (node0 : Node) : Step :=
    /- `let subModIdx = msg.data[4]` — may be `undefined` -/
    let tag := byteAt msg.data 4
    /- `workingIdx = subModIdx & 0x7F` — `undefined & 0x7F` is 0 -/
    let workingIdx := (tag.getD 0) &&& 0x7F
    /- early exit when both parts are already complete; the property access
       on a missing sub-module throws and the `catch` falls through -/
    let alreadyDone :=
      match lookupKey node0.subModule (some workingIdx) with
      | some s => s.partAComplete && s.partBComplete
      | none => false
    if alreadyDone then ⟨db, [], clock⟩
    else
      /- `undefined >= 0x80` is false, so an absent tag keys the map at
         `"undefined"` with phase A semantics -/
      let subModPartB :=
        match tag with
        | some t => decide (t ≥ 0x80)
        | none => false
      let subKey : Option Nat :=
        match tag with
        | some t => if t ≥ 0x80 then some workingIdx else some t
        | none => none
      /- `undefined >= 8` is false -/
      let invalidIdx :=
        match subKey with
        | some i => decide (i ≥ 8)
        | none => false
      if invalidIdx then ⟨db, [], clock⟩
      else
        let subMap0 :=
          if (lookupKey node0.subModule subKey).isNone then
            setKey node0.subModule subKey {}
          else node0.subModule
        let sub0 : SubModule := (lookupKey subMap0 subKey).getD {}
        let sub1 : SubModule :=
          { sub0 with
            subModIdx := subKey
            lastSeen := some clock
            introMsgId := some msg.id
            introMsgDlc := some 8 }
        let clock1 := clock + 1
        let sub2 : SubModule :=
          if !subModPartB then
            { sub1 with
              rawConfig := [byteAt msg.data 5, byteAt msg.data 6, byteAt msg.data 7]
              partAComplete := true }
          else
            let byteSeven := byteVal msg.data 7
            { sub1 with
              dataMsgId := some (((byteVal msg.data 5) <<< 8) ||| ((byteVal msg.data 6) &&& 0xFF))
              dataMsgDlc := some (byteSeven &&& 0x0F)
              saveState := some (decide (byteSeven &&& 0x80 ≠ 0))
              partBComplete := true }
        let node1 := { node0 with subModule := setKey subMap0 subKey sub2 }
        let complete := sub2.partAComplete && sub2.partBComplete
        let node2 := if complete then { node1 with lastSubModIdx := subKey } else node1
        let syncEffs := if complete then [syncNodeToDatabase nodeString node2] else []
        ⟨setKey db nodeString node2, syncEffs ++ sendAckMsg msg, clock1⟩

/-- The sub-module-intro branch (arbitration id in `0x700–0x77F`): require
the parent node to exist, then run the core. -/
def processSubIntro (msg : CanMsg) (db : NodeMap) (clock : Nat)
    (nodeString : String) : Step :=
  match lookupKey db nodeString with
  | none => ⟨db, [], clock⟩
  | some node0 => processSubIntroCore msg db clock nodeString node0

/-- `updateNodeDatabase`: drop payloads shorter than a node id, then dispatch
on the arbitration-id range. -/
def updateNodeDatabase (msg : CanMsg) (db : NodeMap) (clock : Nat) : Step :=
  if msg.data.length < 4 then ⟨db, [], clock⟩
  else
    let nodeString := toHexString (getNodeId msg)
    if 0x780 ≤ msg.id ∧ msg.id ≤ 0x7FF then
      processNodeIntro msg db clock nodeString
    else if 0x700 ≤ msg.id ∧ msg.id ≤ 0x77F then
      processSubIntro msg db clock nodeString
    else ⟨db, [], clock⟩

/-! ## The config writer: `handleNodeConfigUpdate` -/

/-- An operator `UPDATE_NODE_CONFIG` request as destructured by the handler;
absent JSON fields are `none`. -/
structure ConfigUpdateReq where
  nodeId : String
  subModIdx : Option Nat
  dataMsgId : Option Nat
  dataMsgDlc : Option Nat
  rawConfig : List (Option Nat)
deriving Repr, DecidableEq

/-- `Buffer.from(s, 'hex')`: decode two hex characters per byte, stopping at
the first chunk that is not a full valid pair. -/
def bufFromHex (s : String) : List Nat :=
  go (hexChunks s.data)
where
  go : List (List Char) → List Nat
  | [c1, c2] :: rest =>
    match hexCharVal c1, hexCharVal c2 with
    | some a, some b => (16 * a + b) :: go rest
    | _, _ => []
  | _ => []

/-- `src.copy(buf, 0)`: overwrite the front of `buf` with `src`, keeping the
target length. -/
def bufCopy (buf src : List Nat) : List Nat :=
  src.take buf.length ++ buf.drop src.length

/-- `src.copy(buf, off)`: overwrite `buf` from offset `off` with `src`. -/
def bufCopyAt (buf src : List Nat) (off : Nat) : List Nat :=
  buf.take off ++ bufCopy (buf.drop off) src

/-- The `CFG_SUB_DATA_MSG_ID` payload: node id, sub-index, `dataMsgId` as
big-endian 16 bits, `dataMsgDlc`.  The buffer size `CFG_SUB_DATA_MSG_DLC` is
modelled from the spec as the standard 8 (the constant lives in the absent
`can_constants.js`); `Buffer.writeUInt8`/`writeUInt16BE` reject undefined
values, which no property path supplies. -/
def cfgSubDataMsgPayload (req : ConfigUpdateReq) : List Nat :=
  let buf := bufCopy (List.replicate 8 0) (bufFromHex req.nodeId)
  let d := req.dataMsgId.getD 0
  (((buf.set 4 (req.subModIdx.getD 0)).set 5 ((d >>> 8) &&& 0xFF)).set 6
      (d &&& 0xFF)).set 7 (req.dataMsgDlc.getD 0)

/-- The `CFG_SUB_RAW_DATA_ID` payload: node id, sub-index, then the three raw
config bytes copied at offset 5 (`Buffer.from` turns an undefined array entry
into 0). -/
def cfgSubRawDataPayload (req : ConfigUpdateReq) : List Nat :=
  let buf := bufCopy (List.replicate 8 0) (bufFromHex req.nodeId)
  bufCopyAt (buf.set 4 (req.subModIdx.getD 0)) (req.rawConfig.map (·.getD 0)) 5

/-- `handleNodeConfigUpdate` (the config-writer revision the inventory claims
cite): reject unknown nodes; diff `dataMsgId`/`dataMsgDlc` and `rawConfig`
against the in-memory sub-module, emitting one audit row per changed field
and one CAN frame per changed group; on any change, update memory, run the
inventory upsert and history insert in a single transaction, and send
`UPDATE_ACK`.  An absent target sub-module raises a `TypeError` on the first
property access, which the WebSocket handler's `catch` swallows before any
effect: modelled as the empty step.  The `rawConfig` diff is
`JSON.stringify` equality, which coincides with list equality on these
arrays.  The history row's `config_crc` column is `none` because the source
reads `info.config_crc`, a property the node object (which uses `configCrc`)
never has. -/
def handleNodeConfigUpdate (db : NodeMap) (clock : Nat) (req : ConfigUpdateReq) :
    Step :=
  match lookupKey db req.nodeId with
  | none => ⟨db, [], clock⟩
  | some nodeData =>
    match lookupKey nodeData.subModule req.subModIdx with
    | none => ⟨db, [], clock⟩
    | some targetSub =>
      let group1 :=
        decide (targetSub.dataMsgId ≠ req.dataMsgId) ||
        decide (targetSub.dataMsgDlc ≠ req.dataMsgDlc)
      let effs1 : List Effect :=
        if group1 then
          (if decide (targetSub.dataMsgId ≠ req.dataMsgId) then
            [Effect.dbStmt (.auditInsert req.nodeId req.subModIdx "dataMsgId")]
          else []) ++
          (if decide (targetSub.dataMsgDlc ≠ req.dataMsgDlc) then
            [Effect.dbStmt (.auditInsert req.nodeId req.subModIdx "dataMsgDlc")]
          else []) ++
          [.canSend .cfgSubDataMsg (cfgSubDataMsgPayload req)]
        else []
      let sub1 :=
        if group1 then
          { targetSub with dataMsgId := req.dataMsgId, dataMsgDlc := req.dataMsgDlc }
        else targetSub
      /- group 1 leaves `rawConfig` untouched, so the source's diff of
         `targetSub.rawConfig` equals a diff of `sub1.rawConfig` -/
      let group2 := decide (targetSub.rawConfig ≠ req.rawConfig)
      let effs2 : List Effect :=
        if group2 then
          [Effect.dbStmt (.auditInsert req.nodeId req.subModIdx "rawConfig"),
           .canSend .cfgSubRawData (cfgSubRawDataPayload req)]
        else []
      let sub2 := if group2 then { sub1 with rawConfig := req.rawConfig } else sub1
      if group1 || group2 then
        let node1 :=
          { nodeData with
            subModule := setKey nodeData.subModule req.subModIdx sub2
            lastSeen := some clock }
        ⟨setKey db req.nodeId node1,
         effs1 ++ effs2 ++
         [.dbTx [.invUpsert req.nodeId (invRowOf node1),
                 .histInsert req.nodeId
                   ⟨node1.nodeTypeMsg, node1.subModCnt, none, clock + 1,
                    node1.subModule⟩],
          .wsReply "UPDATE_ACK" req.nodeId req.subModIdx true],
         clock + 2⟩
      else ⟨db, [], clock⟩

/-! ## Operator re-interview: the `REQUEST_NODE_INTERVIEW` case -/

/-- The `REQUEST_NODE_INTERVIEW` operator handler: when `request.nodeId` is
truthy (the empty string is the falsy string), clear the node's sub-module
map, reset `lastSubModIdx` and `introComplete` if the node is known,
broadcast the cleared inventory, and emit one `REQ_NODE_INTRO` frame whose
payload is the node id parsed back to bytes. -/
def handleRequestNodeInterview (db : NodeMap) (nodeIdStr : String) :
    NodeMap × List Effect :=
  if nodeIdStr = "" then (db, [])
  else
    let db1 :=
      match lookupKey db nodeIdStr with
      | some node =>
        setKey db nodeIdStr
          { node with subModule := [], lastSubModIdx := some 0, introComplete := false }
      | none => db
    (db1, [.wsBroadcast "DATABASE_UPDATE",
           writeCanMessageBE .reqNodeIntro (hexStringToByteArray nodeIdStr)])

/-! ## Observation helpers over effect lists -/

/-- The `ACK_INTRO` frames among a step's effects. -/
def ackSends (effs : List Effect) : List Effect :=
  effs.filter fun e =>
    match e with
    | .canSend .ackIntro _ => true
    | _ => false

/-- The top-level (auto-committed) `node_inventory` upserts among a step's
effects; writes inside a `dbTx` are not listed. -/
def invUpserts (effs : List Effect) : List (String × InvRow) :=
  effs.filterMap fun e =>
    match e with
    | .dbStmt (.invUpsert n r) => some (n, r)
    | _ => none

/-- The top-level (auto-committed) `node_history` inserts among a step's
effects; writes inside a `dbTx` are not listed. -/
def histInserts (effs : List Effect) : List (String × HistRow) :=
  effs.filterMap fun e =>
    match e with
    | .dbStmt (.histInsert n r) => some (n, r)
    | _ => none

/-- The transactions among a step's effects. -/
def txEffects (effs : List Effect) : List Effect :=
  effs.filter fun e =>
    match e with
    | .dbTx _ => true
    | _ => false

/-- The sub-module map key a sub-intro frame addresses: the tag byte with the
phase-B bit stripped, or the `"undefined"` key when the tag byte is absent. -/
def subKeyOf (msg : CanMsg) : Option Nat :=
  match byteAt msg.data 4 with
  | some t => if t ≥ 0x80 then some (t &&& 0x7F) else some t
  | none => none

/-! ## Concrete scenario states used by witnesses and counterexamples -/

/-- A fully interviewed sub-module at index 0 of the scenario node. -/
def noopSub : SubModule :=
  { rawConfig := [some 7, some 7, some 7], subModIdx := some 0,
    lastSeen := some 5, introMsgId := some 0x700, introMsgDlc := some 8,
    dataMsgId := some 6, dataMsgDlc := some 3, saveState := some false,
    partAComplete := true, partBComplete := true }

/-- A scenario node holding `noopSub`. -/
def noopNode : Node :=
  { subModule := [(some 0, noopSub)], lastSubModIdx := some 0,
    nodeId := some "01020304", lastSeen := some 6, nodeTypeMsg := some 0x780,
    nodeTypeDlc := some 8, subModCnt := some 1, configCrc := some 0x12,
    firstSeen := some 1, introComplete := true }

/-- A one-node inventory for the config-writer scenarios. -/
def noopDb : NodeMap := [("01020304", noopNode)]

/-- An `UPDATE_NODE_CONFIG` request that restates `noopSub` verbatim. -/
def noopReq : ConfigUpdateReq :=
  ⟨"01020304", some 0, some 6, some 3, [some 7, some 7, some 7]⟩

/-- Node-intro frame for node `01020304` announcing two sub-modules and
CRC 0x0012. -/
def scIntro : CanMsg := ⟨0x780, [1, 2, 3, 4, 2, 0x00, 0x12, 0]⟩

/-- The same node-intro frame with the drifted CRC 0x0099. -/
def scIntroDrift : CanMsg := ⟨0x780, [1, 2, 3, 4, 2, 0x00, 0x99, 0]⟩

/-- Phase-A sub-intro for sub-module 0 with raw config `[7, 7, 7]`. -/
def scSubA0 : CanMsg := ⟨0x700, [1, 2, 3, 4, 0x00, 7, 7, 7]⟩

/-- A second phase-A sub-intro for sub-module 0 carrying different raw
config bytes. -/
def scSubA0' : CanMsg := ⟨0x700, [1, 2, 3, 4, 0x00, 1, 2, 3]⟩

/-- Phase-B sub-intro for sub-module 0. -/
def scSubB0 : CanMsg := ⟨0x700, [1, 2, 3, 4, 0x80, 0, 6, 0x03]⟩

/-- Phase-A sub-intro for sub-module 1. -/
def scSubA1 : CanMsg := ⟨0x700, [1, 2, 3, 4, 0x01, 9, 9, 9]⟩

/-- Phase-B sub-intro for sub-module 1. -/
def scSubB1 : CanMsg := ⟨0x700, [1, 2, 3, 4, 0x81, 0, 5, 0x03]⟩

/-- Scenario: the node introduces itself. -/
def scSt1 : Step := updateNodeDatabase scIntro [] 0

/-- Scenario: sub-module 0 has completed phase A only. -/
def scSt2 : Step := updateNodeDatabase scSubA0 scSt1.db scSt1.clock

/-- Scenario: sub-module 1 completes both phases (phase A, then phase B). -/
def scSt3 : Step :=
  let a := updateNodeDatabase scSubA1 scSt1.db scSt1.clock
  updateNodeDatabase scSubB1 a.db a.clock

/-- Scenario: after sub-module 1, sub-module 0 completes both phases. -/
def scSt4 : Step :=
  let a := updateNodeDatabase scSubA0 scSt3.db scSt3.clock
  updateNodeDatabase scSubB0 a.db a.clock

/-- The parent node as the sub-intro branch leaves it: the sub-module map
updated at key `k` with `sub2`, and `lastSubModIdx` moved to `k` exactly when
the frame completed both phases. -/
def subCompletedNode (node0 : Node) (m : SubMap) (k : Option Nat)
    (sub2 : SubModule) : Node :=
  if sub2.partAComplete && sub2.partBComplete then
    { node0 with subModule := setKey m k sub2, lastSubModIdx := k }
  else
    { node0 with subModule := setKey m k sub2 }

/-- The scenario node as stored after `scSt4`. -/
def scNode4 : Node := (lookupKey scSt4.db "01020304").getD {}

/-- Scenario: the drifted node-intro frame arrives after `scSt4`. -/
def scDrift : Step := updateNodeDatabase scIntroDrift scSt4.db scSt4.clock

/-- The scenario node after phase B completes sub-module 0 on `scSt3`. -/
def c4NodeAfter : Node :=
  (lookupKey (updateNodeDatabase scSubB0 scSt3.db scSt3.clock).db "01020304").getD {}

/-- An `UPDATE_NODE_CONFIG` request changing `noopSub`'s `dataMsgId` 6 → 7. -/
def cfgReqChg : ConfigUpdateReq :=
  ⟨"01020304", some 0, some 7, some 3, [some 7, some 7, some 7]⟩

/-- The sub-module after applying `cfgReqChg`. -/
def cfgSub2 : SubModule := { noopSub with dataMsgId := some 7, dataMsgDlc := some 3 }

/-- The node after applying `cfgReqChg` at clock 3. -/
def cfgNode1 : Node :=
  { noopNode with subModule := setKey noopNode.subModule (some 0) cfgSub2, lastSeen := some 3 }

/-- The transaction body `cfgReqChg` produces at clock 3. -/
def cfgTx : List DbWrite :=
  [DbWrite.invUpsert "01020304" (invRowOf cfgNode1),
   DbWrite.histInsert "01020304"
     ⟨cfgNode1.nodeTypeMsg, cfgNode1.subModCnt, none, 4, cfgNode1.subModule⟩]

/-- Big-endian 16-bit assembly `(hi << 8) | (lo & 0xFF)` equals
`256 * hi + lo` on byte values. -/
theorem beWord (hi lo : Nat) (h : lo < 256) :
    ((hi <<< 8) ||| (lo &&& 0xFF)) = 256 * hi + lo := by
  have h1 : lo &&& 0xFF = lo % 256 := by
    simpa using Nat.and_pow_two_sub_one_eq_mod lo 8
  rw [h1, Nat.mod_eq_of_lt h, Nat.shiftLeft_eq, Nat.mul_comm,
    ← Nat.mul_add_lt_is_or (by simpa using h) hi]

/-! ## Hex round-trip -/

theorem hexCharVal_hexDigitChar : ∀ d < 16, hexCharVal (hexDigitChar d) = some d := by
  decide

theorem jsParseIntHexChunk_byteToHexChars (b : Nat) (hb : b < 256) :
    jsParseIntHexChunk (byteToHexChars b) = some b := by
  have hdiv : b / 16 < 16 := Nat.div_lt_of_lt_mul (by omega)
  have hmod : b % 16 < 16 := Nat.mod_lt _ (by omega)
  simp only [byteToHexChars, jsParseIntHexChunk,
    hexCharVal_hexDigitChar _ hdiv, hexCharVal_hexDigitChar _ hmod]
  congr 1
  omega

/-- Parsing a node-id hex string back to bytes recovers the bytes it was
rendered from. -/
theorem hexStringToByteArray_toHexString (bs : List Nat)
    (hb : ∀ b ∈ bs, b < 256) :
    hexStringToByteArray (toHexString bs) = bs.map some := by
  show (hexChunks (bs.flatMap byteToHexChars)).map jsParseIntHexChunk = bs.map some
  revert hb
  induction bs with
  | nil => intro _; rfl
  | cons b rest ih =>
    intro hb
    have hb0 : b < 256 := hb b (by simp)
    have hrest : ∀ x ∈ rest, x < 256 := fun x hx => hb x (by simp [hx])
    have hflat : ((b :: rest).flatMap byteToHexChars) =
        hexDigitChar (b / 16) :: hexDigitChar (b % 16) :: rest.flatMap byteToHexChars := rfl
    rw [hflat,
      show hexChunks (hexDigitChar (b / 16) :: hexDigitChar (b % 16) ::
          rest.flatMap byteToHexChars) =
        [hexDigitChar (b / 16), hexDigitChar (b % 16)] ::
          hexChunks (rest.flatMap byteToHexChars) from rfl,
      List.map_cons, ih hrest,
      show ([hexDigitChar (b / 16), hexDigitChar (b % 16)] : List Char) =
        byteToHexChars b from rfl,
      jsParseIntHexChunk_byteToHexChars b hb0, List.map_cons]

/-- Looking up the key just assigned returns the assigned value. -/
theorem lookupKey_setKey {α β : Type} [DecidableEq α] (m : List (α × β)) (k : α) (v : β) :
    lookupKey (setKey m k v) k = some v := by
  induction m with
  | nil => simp [setKey, lookupKey]
  | cons p rest ih =>
    obtain ⟨a, b⟩ := p
    by_cases h : a = k <;> simp [setKey, lookupKey, h, ih]

/-- A node-intro frame long enough to carry its `subModCnt` byte is handled
by the node-intro core. -/
theorem updateNodeDatabase_introCore (msg : CanMsg) (db : NodeMap) (clock : Nat)
    (hid : 0x780 ≤ msg.id ∧ msg.id ≤ 0x7FF) (hnlt : ¬ msg.data.length < 4) :
    updateNodeDatabase msg db clock =
      processNodeIntroCore msg db clock (toHexString (getNodeId msg))
        (lookupKey db (toHexString (getNodeId msg))).isSome
        ((lookupKey db (toHexString (getNodeId msg))).getD {}) := by
  simp only [updateNodeDatabase, if_neg hnlt, if_pos hid, processNodeIntro]

/-- On a payload of at least 4 bytes, `sendAckMsg` emits one `ACK_INTRO`
frame whose first four bytes are the frame's first four payload bytes
(`getMsgId` always returns `null`, so only the length guard matters). -/
theorem sendAckMsg_eq (msg : CanMsg) (hnlt : ¬ msg.data.length < 4) :
    sendAckMsg msg =
      [.canSend .ackIntro (packBytes ((msg.data.take 4).map some))] := by
  have hgn : getNodeId msg = msg.data.take 4 := by simp [getNodeId, hnlt]
  simp only [sendAckMsg, getMsgId, inRangeOpt, Bool.not_false, Bool.and_true]
  rw [if_neg (by simpa using hnlt), writeCanMessageBE, hgn]

/-- ACK gating on the node-intro core, for a frame whose `subModCnt` byte
exists and a pre-state node whose `lastSubModIdx` is a number. -/
theorem ack_gating_core (msg : CanMsg) (db : NodeMap) (clock : Nat) (s : String)
    (ik : Bool) (node0 : Node)
    (c : Nat) (hc : byteAt msg.data 4 = some c)
    (hack : sendAckMsg msg = [.canSend .ackIntro (packBytes ((msg.data.take 4).map some))])
    (l : Nat) (hl : node0.lastSubModIdx = some l) :
    ((l : Int) < (c : Int) - 1 →
      ackSends (processNodeIntroCore msg db clock s ik node0).effects =
        [.canSend .ackIntro (packBytes ((msg.data.take 4).map some))]) ∧
    (¬ (l : Int) < (c : Int) - 1 →
      ackSends (processNodeIntroCore msg db clock s ik node0).effects = [] ∧
      (lookupKey (processNodeIntroCore msg db clock s ik node0).db s).map
          Node.introComplete = some true ∧
      ∃ node', lookupKey (processNodeIntroCore msg db clock s ik node0).db s = some node' ∧
        (s, invRowOf node') ∈ invUpserts (processNodeIntroCore msg db clock s ik node0).effects) := by
  simp only [processNodeIntroCore]
  split_ifs with h1 h2 h3 h4 h5 h6 <;>
    simp only [hl, hc, byteAt, jsGeSubOne] at * <;>
    constructor <;>
    intro hcmp <;>
    simp_all [ackSends, invUpserts, recordNodeSnapshot, syncNodeToDatabase,
      lookupKey_setKey, hack] <;> omega

/-! ## C8 — malformed-frame drop -/

/-- C8: a received frame whose payload has fewer than 4 bytes leaves the
inventory unchanged and produces no effect at all — in particular no ACK —
whatever its arbitration id. -/
theorem malformed_frame_drop (msg : CanMsg) (db : NodeMap) (clock : Nat)
    (h : msg.data.length < 4) :
    updateNodeDatabase msg db clock = ⟨db, [], clock⟩ := by
  simp [updateNodeDatabase, h]

/-- Witness for C8 at a concrete 2-byte frame. -/
theorem malformed_frame_drop_witness :
    (CanMsg.mk 0x7A0 [0x19, 0x42]).data.length < 4 ∧
      updateNodeDatabase ⟨0x7A0, [0x19, 0x42]⟩ [] 5 = ⟨[], [], 5⟩ :=
  ⟨by decide, malformed_frame_drop ⟨0x7A0, [0x19, 0x42]⟩ [] 5 (by decide)⟩

/-! ## C9 — unknown-node update rejection -/

/-- C9: an `UPDATE_NODE_CONFIG` request for a node absent from the in-memory
inventory is rejected outright: no CAN frame, no audit or history row, no
`UPDATE_ACK`, and both the inventory and the persisted tables are untouched
(the step has no effects whatsoever). -/
theorem unknown_node_update_rejected (db : NodeMap) (clock : Nat)
    (req : ConfigUpdateReq) (h : lookupKey db req.nodeId = none) :
    handleNodeConfigUpdate db clock req = ⟨db, [], clock⟩ := by
  simp [handleNodeConfigUpdate, h]

/-- Witness for C9: an update aimed at an empty inventory. -/
theorem unknown_node_update_rejected_witness :
    lookupKey ([] : NodeMap) "deadbeef" = none ∧
      handleNodeConfigUpdate [] 3 ⟨"deadbeef", some 0, some 1, some 8, [some 0, some 0, some 0]⟩ =
        ⟨[], [], 3⟩ :=
  ⟨by decide,
   unknown_node_update_rejected [] 3 ⟨"deadbeef", some 0, some 1, some 8, [some 0, some 0, some 0]⟩
     (by decide)⟩

/-! ## C5 — config-writer no-op -/

/-- C5: an `UPDATE_NODE_CONFIG` whose `dataMsgId`, `dataMsgDlc` and
`rawConfig` all equal the values stored for the targeted node and sub-module
is a complete no-op: no CAN frame, no audit row, no history row, no
inventory write, no `UPDATE_ACK`, and the in-memory inventory is returned
unchanged. -/
theorem config_update_noop (db : NodeMap) (clock : Nat) (req : ConfigUpdateReq)
    (node : Node) (sub : SubModule)
    (hn : lookupKey db req.nodeId = some node)
    (hs : lookupKey node.subModule req.subModIdx = some sub)
    (h1 : sub.dataMsgId = req.dataMsgId)
    (h2 : sub.dataMsgDlc = req.dataMsgDlc)
    (h3 : sub.rawConfig = req.rawConfig) :
    handleNodeConfigUpdate db clock req = ⟨db, [], clock⟩ := by
  simp [handleNodeConfigUpdate, hn, hs, h1, h2, h3]

/-- Witness for C5: a request that restates a stored sub-module. -/
theorem config_update_noop_witness :
    lookupKey noopDb "01020304" = some noopNode ∧
      lookupKey noopNode.subModule (some 0) = some noopSub ∧
      handleNodeConfigUpdate noopDb 9 noopReq = ⟨noopDb, [], 9⟩ :=
  ⟨by decide, by decide,
   config_update_noop noopDb 9 noopReq noopNode noopSub (by decide) (by decide)
     rfl rfl rfl⟩

/-! ## C2 — ACK gating -/

/-- C2 counterexample: a node-intro frame with exactly 4 payload bytes (the
claim admits any payload ≥ 4 bytes) is ACKed even though
`lastSubModIdx < subModCnt − 1` does not hold — the frame has no `subModCnt`
byte, so the stored count is undefined and the comparison is false — and the
complementary promise (set `introComplete`, persist, do not ACK) fails too:
`introComplete` stays false and nothing is persisted. -/
theorem ack_gating_counterexample :
    ackSends (updateNodeDatabase ⟨0x780, [0x19, 0, 0, 0x19]⟩ [] 0).effects =
      [.canSend .ackIntro [0x19, 0, 0, 0x19, 0, 0, 0, 0]] ∧
    (lookupKey (updateNodeDatabase ⟨0x780, [0x19, 0, 0, 0x19]⟩ [] 0).db "19000019").map
        (fun n => (n.lastSubModIdx, n.subModCnt, n.introComplete)) =
      some (some 0, none, false) ∧
    invUpserts (updateNodeDatabase ⟨0x780, [0x19, 0, 0, 0x19]⟩ [] 0).effects = [] := by
  decide

/-- C2 (amended: the node-intro frame carries its `subModCnt` byte, i.e. the
payload has at least 5 bytes; a 4-byte frame is always ACKed because the
comparison with the undefined count is false).  For such a frame processed
for a node whose `lastSubModIdx` is the number `l`: an `ACK_INTRO` frame
carrying the node's 4 NodeId bytes is emitted iff `l < subModCnt − 1`;
otherwise `introComplete` is set to true, the node is persisted to
`node_inventory`, and no ACK is emitted. -/
theorem ack_gating (msg : CanMsg) (db : NodeMap) (clock : Nat)
    (hid : 0x780 ≤ msg.id ∧ msg.id ≤ 0x7FF)
    (c : Nat) (hc : byteAt msg.data 4 = some c)
    (b0 b1 b2 b3 : Nat) (hb : msg.data.take 4 = [b0, b1, b2, b3])
    (l : Nat)
    (hl : ((lookupKey db (toHexString (getNodeId msg))).getD {}).lastSubModIdx = some l) :
    ((l : Int) < (c : Int) - 1 →
      ackSends (updateNodeDatabase msg db clock).effects =
        [.canSend .ackIntro [b0, b1, b2, b3, 0, 0, 0, 0]]) ∧
    (¬ (l : Int) < (c : Int) - 1 →
      ackSends (updateNodeDatabase msg db clock).effects = [] ∧
      (lookupKey (updateNodeDatabase msg db clock).db
          (toHexString (getNodeId msg))).map Node.introComplete = some true ∧
      ∃ node', lookupKey (updateNodeDatabase msg db clock).db
          (toHexString (getNodeId msg)) = some node' ∧
        (toHexString (getNodeId msg), invRowOf node') ∈
          invUpserts (updateNodeDatabase msg db clock).effects) := by
  have hlen : 4 < msg.data.length := (List.get?_eq_some.mp hc).1
  have hnlt : ¬ msg.data.length < 4 := by omega
  have hpack : packBytes ((msg.data.take 4).map some) = [b0, b1, b2, b3, 0, 0, 0, 0] := by
    rw [hb]; rfl
  rw [updateNodeDatabase_introCore msg db clock hid hnlt, ← hpack]
  exact ack_gating_core msg db clock (toHexString (getNodeId msg)) _ _ c hc
    (sendAckMsg_eq msg hnlt) l hl

/-- Witness for C2 at the first-contact frame of an empty inventory
(`l = 0`, `subModCnt = 2`, so the ACK side fires). -/
theorem ack_gating_witness :
    ((0x780 ≤ (0x780 : Nat) ∧ (0x780 : Nat) ≤ 0x7FF) ∧
      byteAt [1, 2, 3, 4, 2, 0, 0x12, 0] 4 = some 2 ∧
      List.take 4 [1, 2, 3, 4, 2, 0, 0x12, 0] = [1, 2, 3, 4] ∧
      ((lookupKey ([] : NodeMap) (toHexString (getNodeId scIntro))).getD
        {}).lastSubModIdx = some 0) ∧
    ackSends (updateNodeDatabase scIntro [] 0).effects =
      [.canSend .ackIntro [1, 2, 3, 4, 0, 0, 0, 0]] :=
  ⟨⟨by decide, by decide, by decide, by decide⟩,
   (ack_gating scIntro [] 0 (by decide) 2 (by decide) 1 2 3 4 (by decide) 0
      (by decide)).1 (by decide)⟩

/-! ## C10 — single-sub-module edge case -/

/-- C10: a node-intro frame that creates a previously unknown node whose
`subModCnt` byte is 0 or 1 immediately completes the interview:
`introComplete` is set (the fresh `lastSubModIdx` 0 satisfies
`0 ≥ subModCnt − 1`), the node is persisted to `node_inventory`, and no ACK
is emitted — the node is never solicited for its sub-module. -/
theorem single_submodule_intro_complete (msg : CanMsg) (db : NodeMap) (clock : Nat)
    (hid : 0x780 ≤ msg.id ∧ msg.id ≤ 0x7FF)
    (c : Nat) (hc : byteAt msg.data 4 = some c) (hc01 : c = 0 ∨ c = 1)
    (hnew : lookupKey db (toHexString (getNodeId msg)) = none) :
    ackSends (updateNodeDatabase msg db clock).effects = [] ∧
    (lookupKey (updateNodeDatabase msg db clock).db
        (toHexString (getNodeId msg))).map Node.introComplete = some true ∧
    ∃ node', lookupKey (updateNodeDatabase msg db clock).db
        (toHexString (getNodeId msg)) = some node' ∧
      (toHexString (getNodeId msg), invRowOf node') ∈
        invUpserts (updateNodeDatabase msg db clock).effects := by
  have hlen : 4 < msg.data.length := (List.get?_eq_some.mp hc).1
  have hnlt : ¬ msg.data.length < 4 := by omega
  have hl : ((lookupKey db (toHexString (getNodeId msg))).getD {}).lastSubModIdx =
      some 0 := by rw [hnew]; rfl
  have h2 := (ack_gating_core msg db clock (toHexString (getNodeId msg))
    (lookupKey db (toHexString (getNodeId msg))).isSome
    ((lookupKey db (toHexString (getNodeId msg))).getD {}) c hc
    (sendAckMsg_eq msg hnlt) 0 hl).2
  rw [← updateNodeDatabase_introCore msg db clock hid hnlt] at h2
  exact h2 (by rcases hc01 with h | h <;> simp [h])

/-- Witness for C10: an unknown node announcing a single sub-module. -/
theorem single_submodule_intro_complete_witness :
    ((0x780 ≤ (0x781 : Nat) ∧ (0x781 : Nat) ≤ 0x7FF) ∧
      byteAt [1, 2, 3, 4, 1, 0, 0x12, 0] 4 = some 1 ∧
      lookupKey ([] : NodeMap)
        (toHexString (getNodeId ⟨0x781, [1, 2, 3, 4, 1, 0, 0x12, 0]⟩)) = none) ∧
    ackSends (updateNodeDatabase ⟨0x781, [1, 2, 3, 4, 1, 0, 0x12, 0]⟩ [] 0).effects = [] ∧
    (lookupKey (updateNodeDatabase ⟨0x781, [1, 2, 3, 4, 1, 0, 0x12, 0]⟩ [] 0).db
        "01020304").map Node.introComplete = some true :=
  ⟨⟨by decide, by decide, by decide⟩,
   by
    have h := single_submodule_intro_complete ⟨0x781, [1, 2, 3, 4, 1, 0, 0x12, 0]⟩ [] 0
      (by decide) 1 (by decide) (Or.inr rfl) (by decide)
    exact ⟨h.1, by simpa using h.2.1⟩⟩

/-! ## C1 — CRC-drift snapshot law -/

/-- CRC-drift behaviour of the node-intro core: on a known node with a
defined, different CRC exactly one history row of the prior state is
inserted, with `recorded_at` (the entry clock) strictly before the updated
`lastSeen`; otherwise no history row is inserted. -/
theorem crc_drift_core (msg : CanMsg) (db : NodeMap) (clock : Nat) (s : String)
    (ik : Bool) (node0 : Node)
    (b5 b6 : Nat) (hb5 : byteAt msg.data 5 = some b5) (hb6 : byteAt msg.data 6 = some b6)
    (hb6' : b6 < 256) :
    (∀ oldCrc, ik = true → node0.configCrc = some oldCrc → oldCrc ≠ 256 * b5 + b6 →
      histInserts (processNodeIntroCore msg db clock s ik node0).effects =
        [(s, ⟨node0.nodeTypeMsg, node0.subModCnt, some oldCrc, clock, node0.subModule⟩)] ∧
      ∃ t, ((lookupKey (processNodeIntroCore msg db clock s ik node0).db s).bind
        Node.lastSeen) = some t ∧ clock < t) ∧
    ((ik = false ∨ node0.configCrc = none ∨ node0.configCrc = some (256 * b5 + b6)) →
      histInserts (processNodeIntroCore msg db clock s ik node0).effects = []) := by
  have hinc : (byteVal msg.data 5 <<< 8) ||| (byteVal msg.data 6 &&& 0xFF) = 256 * b5 + b6 := by
    rw [show byteVal msg.data 5 = b5 by simp [byteVal, byteAt] at hb5 ⊢; simp [hb5],
        show byteVal msg.data 6 = b6 by simp [byteVal, byteAt] at hb6 ⊢; simp [hb6]]
    exact beWord b5 b6 hb6'
  simp only [processNodeIntroCore, hinc]
  constructor
  · intro oldCrc hik hcrc hne
    have hch : (ik && node0.configCrc.isSome &&
        decide (node0.configCrc ≠ some (256 * b5 + b6))) = true := by
      simp [hik, hcrc, hne]
    simp only [hch, if_true]
    constructor
    · split_ifs <;>
        simp [histInserts, recordNodeSnapshot, syncNodeToDatabase, sendAckMsg,
          writeCanMessageBE, getMsgId, inRangeOpt, hcrc]
    · refine ⟨clock + 1, ?_, by omega⟩
      split_ifs <;>
        simp [lookupKey_setKey, recordNodeSnapshot]
  · intro hno
    have hch : (ik && node0.configCrc.isSome &&
        decide (node0.configCrc ≠ some (256 * b5 + b6))) = false := by
      rcases hno with h | h | h <;> simp [h]
    simp only [hch, Bool.false_eq_true, if_false]
    split_ifs <;>
      simp [histInserts, recordNodeSnapshot, syncNodeToDatabase, sendAckMsg,
        writeCanMessageBE, getMsgId, inRangeOpt]

/-- C1: for every node-intro frame whose big-endian 16-bit CRC at payload
bytes 5..6 (`256 * b5 + b6`) differs from the `configCrc` already stored for
a known node with a defined `configCrc`, processing inserts exactly one
`node_history` row whose `config_crc` is the old CRC and whose `full_data`
is the sub-module map as it was before the frame, with `recorded_at` (the
clock on entry) strictly preceding the node's updated `lastSeen`; for a
first-seen node or an unchanged or undefined stored CRC, no history row is
inserted. -/
theorem crc_drift_snapshot_law (msg : CanMsg) (db : NodeMap) (clock : Nat)
    (hid : 0x780 ≤ msg.id ∧ msg.id ≤ 0x7FF)
    (b5 b6 : Nat) (hb5 : byteAt msg.data 5 = some b5) (hb6 : byteAt msg.data 6 = some b6)
    (hb6' : b6 < 256) :
    (∀ node oldCrc, lookupKey db (toHexString (getNodeId msg)) = some node →
      node.configCrc = some oldCrc → oldCrc ≠ 256 * b5 + b6 →
      histInserts (updateNodeDatabase msg db clock).effects =
        [(toHexString (getNodeId msg),
          ⟨node.nodeTypeMsg, node.subModCnt, some oldCrc, clock, node.subModule⟩)] ∧
      ∃ t, ((lookupKey (updateNodeDatabase msg db clock).db
        (toHexString (getNodeId msg))).bind Node.lastSeen) = some t ∧ clock < t) ∧
    ((lookupKey db (toHexString (getNodeId msg)) = none ∨
      ∃ node, lookupKey db (toHexString (getNodeId msg)) = some node ∧
        (node.configCrc = none ∨ node.configCrc = some (256 * b5 + b6))) →
      histInserts (updateNodeDatabase msg db clock).effects = []) := by
  have hlen : 5 < msg.data.length := (List.get?_eq_some.mp hb5).1
  have hnlt : ¬ msg.data.length < 4 := by omega
  constructor
  · intro node oldCrc hlook hcrc hne
    rw [updateNodeDatabase_introCore msg db clock hid hnlt, hlook]
    simp only [Option.getD_some, Option.isSome_some]
    exact (crc_drift_core msg db clock (toHexString (getNodeId msg)) true node
      b5 b6 hb5 hb6 hb6').1 oldCrc rfl hcrc hne
  · intro hno
    rw [updateNodeDatabase_introCore msg db clock hid hnlt]
    rcases hno with h | ⟨node, hlook, hcc⟩
    · rw [h]
      simp only [Option.getD_none, Option.isSome_none]
      exact (crc_drift_core msg db clock (toHexString (getNodeId msg)) false {}
        b5 b6 hb5 hb6 hb6').2 (Or.inl rfl)
    · rw [hlook]
      simp only [Option.getD_some, Option.isSome_some]
      exact (crc_drift_core msg db clock (toHexString (getNodeId msg)) true node
        b5 b6 hb5 hb6 hb6').2 (Or.inr hcc)

/-- Witness for C1: the interviewed scenario node drifts from CRC 0x0012 to
0x0099. -/
theorem crc_drift_snapshot_law_witness :
    (lookupKey scSt4.db (toHexString (getNodeId scIntroDrift)) = some scNode4 ∧
      scNode4.configCrc = some 0x12 ∧ (0x12 : Nat) ≠ 256 * 0 + 0x99) ∧
    histInserts (updateNodeDatabase scIntroDrift scSt4.db scSt4.clock).effects =
      [(toHexString (getNodeId scIntroDrift),
        ⟨scNode4.nodeTypeMsg, scNode4.subModCnt, some 0x12, scSt4.clock,
          scNode4.subModule⟩)] ∧
    ∃ t, ((lookupKey (updateNodeDatabase scIntroDrift scSt4.db scSt4.clock).db
        (toHexString (getNodeId scIntroDrift))).bind Node.lastSeen) = some t ∧
      scSt4.clock < t :=
  ⟨⟨by decide, by decide, by decide⟩,
   (crc_drift_snapshot_law scIntroDrift scSt4.db scSt4.clock (by decide) 0 0x99
      (by decide) (by decide) (by decide)).1 scNode4 0x12 (by decide) (by decide)
      (by decide)⟩

/-! ## C3 — phase idempotence -/

/-- C3 counterexample: after `scSt2` sub-module 0 has `partAComplete = true`
(and `partBComplete = false`); a further phase-A frame for the same
(NodeId, index) with different raw-config bytes overwrites `rawConfig`, so
the inventory is *not* left unchanged.  The handler only drops a sub-intro
frame when *both* phases are complete. -/
theorem phase_idempotence_counterexample :
    ((lookupKey scSt2.db "01020304").bind
        (fun n => lookupKey n.subModule (some 0))).map
        (fun s => (s.partAComplete, s.partBComplete, s.rawConfig)) =
      some (true, false, [some 7, some 7, some 7]) ∧
    ((lookupKey (updateNodeDatabase scSubA0' scSt2.db scSt2.clock).db
        "01020304").bind (fun n => lookupKey n.subModule (some 0))).map
        (fun s => s.rawConfig) = some [some 1, some 2, some 3] ∧
    (updateNodeDatabase scSubA0' scSt2.db scSt2.clock).db ≠ scSt2.db := by
  decide

/-- C3 (amended: idempotence holds once *both* phase flags are true, not per
phase): when the sub-module addressed by a sub-intro frame already has
`partAComplete` and `partBComplete`, processing the frame leaves the
inventory unchanged and emits nothing — in particular phase-A and phase-B
re-receipt after full completion are no-ops, but a phase need not be
idempotent while the other phase is still missing. -/
theorem phase_idempotence_both_complete (msg : CanMsg) (db : NodeMap) (clock : Nat)
    (node : Node) (sub : SubModule)
    (hid : 0x700 ≤ msg.id ∧ msg.id ≤ 0x77F) (hlen : ¬ msg.data.length < 4)
    (hnode : lookupKey db (toHexString (getNodeId msg)) = some node)
    (hsub : lookupKey node.subModule
      (some (((byteAt msg.data 4).getD 0) &&& 0x7F)) = some sub)
    (hA : sub.partAComplete = true) (hB : sub.partBComplete = true) :
    updateNodeDatabase msg db clock = ⟨db, [], clock⟩ := by
  have hnid : ¬ (0x780 ≤ msg.id ∧ msg.id ≤ 0x7FF) := by omega
  simp only [updateNodeDatabase, if_neg hlen, if_neg hnid, if_pos hid,
    processSubIntro, hnode, processSubIntroCore, hsub, hA, hB, Bool.and_self, if_true]

/-- Witness for C3's amended theorem: a repeat phase-A frame for the fully
interviewed sub-module 0 of the scenario node is dropped. -/
theorem phase_idempotence_both_complete_witness :
    ((0x700 ≤ (0x700 : Nat) ∧ (0x700 : Nat) ≤ 0x77F) ∧
      ¬ (CanMsg.mk 0x700 [1, 2, 3, 4, 0, 9, 9, 9]).data.length < 4 ∧
      lookupKey noopDb
        (toHexString (getNodeId ⟨0x700, [1, 2, 3, 4, 0, 9, 9, 9]⟩)) = some noopNode ∧
      lookupKey noopNode.subModule
        (some (((byteAt [1, 2, 3, 4, 0, 9, 9, 9] 4).getD 0) &&& 0x7F)) = some noopSub ∧
      noopSub.partAComplete = true ∧ noopSub.partBComplete = true) ∧
    updateNodeDatabase ⟨0x700, [1, 2, 3, 4, 0, 9, 9, 9]⟩ noopDb 7 = ⟨noopDb, [], 7⟩ :=
  ⟨⟨by decide, by decide, by decide, by decide, by decide, by decide⟩,
   phase_idempotence_both_complete ⟨0x700, [1, 2, 3, 4, 0, 9, 9, 9]⟩ noopDb 7
     noopNode noopSub (by decide) (by decide) (by decide) (by decide) rfl rfl⟩

/-! ## C4 — `lastSubModIdx` tracking -/

/-- C4 counterexample: sub-module 1 completes first (`lastSubModIdx = 1`),
then sub-module 0 completes and `lastSubModIdx` *drops* to 0 even though
sub-module 1 — a higher index — is still fully interviewed: the field holds
the most recently completed index, which is neither monotone nor the
highest completed index. -/
theorem lastSubModIdx_monotone_counterexample :
    (lookupKey scSt3.db "01020304").map (fun n => n.lastSubModIdx) =
      some (some 1) ∧
    (lookupKey scSt4.db "01020304").map (fun n => n.lastSubModIdx) =
      some (some 0) ∧
    ((lookupKey scSt4.db "01020304").bind
        (fun n => lookupKey n.subModule (some 1))).map
        (fun s => s.partAComplete && s.partBComplete) = some true := by
  decide

/-- `lastSubModIdx` tracking on the sub-intro core: the field is either
untouched or moved to the key of the sub-module this very frame completed
(both phase flags now true). -/
theorem subcore_lastIdx (msg : CanMsg) (db : NodeMap) (clock : Nat) (s : String)
    (node0 : Node) (h0 : lookupKey db s = some node0) :
    ∀ node', lookupKey (processSubIntroCore msg db clock s node0).db s = some node' →
      node'.lastSubModIdx = node0.lastSubModIdx ∨
      (node'.lastSubModIdx = subKeyOf msg ∧
        ∃ sub', lookupKey node'.subModule (subKeyOf msg) = some sub' ∧
          sub'.partAComplete = true ∧ sub'.partBComplete = true) := by
  intro node' h
  simp only [processSubIntroCore] at h
  rcases htag : byteAt msg.data 4 with _ | t
  · have hk : subKeyOf msg = none := by simp [subKeyOf, htag]
    simp only [htag, Option.getD_none] at h
    rw [hk]
    split_ifs at h with h1 h2 h3 h4 h5 <;> try dsimp only at h
    all_goals first
      | (rw [h0] at h; injection h with h; subst h; exact Or.inl rfl)
      | (rw [lookupKey_setKey] at h; injection h with h; subst h
         first
           | exact Or.inl rfl
           | (refine Or.inr ⟨rfl, _, lookupKey_setKey _ _ _, ?_, ?_⟩ <;> simp_all)
           | (exfalso; simp_all))
      | (exfalso; simp_all)
  · by_cases hge : t ≥ 0x80
    · have hk : subKeyOf msg = some (t &&& 0x7F) := by simp [subKeyOf, htag, hge]
      simp only [htag, Option.getD_some, if_pos hge, decide_eq_true hge,
        Bool.not_true, Bool.false_eq_true, if_false] at h
      rw [hk]
      split_ifs at h with h1 h2 h3 h4 h5 <;> try dsimp only at h
      all_goals first
        | (rw [h0] at h; injection h with h; subst h; exact Or.inl rfl)
        | (rw [lookupKey_setKey] at h; injection h with h; subst h
           first
             | exact Or.inl rfl
             | (refine Or.inr ⟨rfl, _, lookupKey_setKey _ _ _, ?_, ?_⟩ <;> simp_all)
             | (exfalso; simp_all))
        | (exfalso; simp_all)
    · have hk : subKeyOf msg = some t := by simp [subKeyOf, htag, hge]
      simp only [htag, Option.getD_some, if_neg hge, decide_eq_false hge,
        Bool.not_false, if_true] at h
      rw [hk]
      split_ifs at h with h1 h2 h3 h4 h5 <;> try dsimp only at h
      all_goals first
        | (rw [h0] at h; injection h with h; subst h; exact Or.inl rfl)
        | (rw [lookupKey_setKey] at h; injection h with h; subst h
           first
             | exact Or.inl rfl
             | (refine Or.inr ⟨rfl, _, lookupKey_setKey _ _ _, ?_, ?_⟩ <;> simp_all)
             | (exfalso; simp_all))
        | (exfalso; simp_all)

/-- C4 (amended: `lastSubModIdx` holds the *most recently* completed index,
not the highest, and may decrease on out-of-order completion): processing
any sub-intro frame for a known node either leaves `lastSubModIdx`
unchanged, or sets it to the frame's sub-module key, and in the latter case
the sub-module stored there has both phase flags true (this frame completed
it). -/
theorem lastSubModIdx_tracks_last_completion (msg : CanMsg) (db : NodeMap)
    (clock : Nat) (node : Node)
    (hid : 0x700 ≤ msg.id ∧ msg.id ≤ 0x77F)
    (hnode : lookupKey db (toHexString (getNodeId msg)) = some node) :
    ∀ node', lookupKey (updateNodeDatabase msg db clock).db
        (toHexString (getNodeId msg)) = some node' →
      node'.lastSubModIdx = node.lastSubModIdx ∨
      (node'.lastSubModIdx = subKeyOf msg ∧
        ∃ sub', lookupKey node'.subModule (subKeyOf msg) = some sub' ∧
          sub'.partAComplete = true ∧ sub'.partBComplete = true) := by
  intro node' h
  by_cases hlen : msg.data.length < 4
  · simp only [updateNodeDatabase, if_pos hlen] at h
    rw [hnode] at h; injection h with h; subst h; exact Or.inl rfl
  · have hnid : ¬ (0x780 ≤ msg.id ∧ msg.id ≤ 0x7FF) := by omega
    simp only [updateNodeDatabase, if_neg hlen, if_neg hnid, if_pos hid,
      processSubIntro, hnode] at h
    exact subcore_lastIdx msg db clock _ node hnode node' h

/-- Witness for C4's amended theorem: a phase-B frame completes sub-module 0
of the scenario node and `lastSubModIdx` moves to its key. -/
theorem lastSubModIdx_tracks_last_completion_witness :
    ((0x700 ≤ (0x700 : Nat) ∧ (0x700 : Nat) ≤ 0x77F) ∧
      lookupKey scSt3.db (toHexString (getNodeId scSubB0)) =
        some ((lookupKey scSt3.db "01020304").getD {}) ∧
      lookupKey (updateNodeDatabase scSubB0 scSt3.db scSt3.clock).db
        (toHexString (getNodeId scSubB0)) = some c4NodeAfter) ∧
    (c4NodeAfter.lastSubModIdx =
        ((lookupKey scSt3.db "01020304").getD {}).lastSubModIdx ∨
      (c4NodeAfter.lastSubModIdx = subKeyOf scSubB0 ∧
        ∃ sub', lookupKey c4NodeAfter.subModule (subKeyOf scSubB0) = some sub' ∧
          sub'.partAComplete = true ∧ sub'.partBComplete = true)) :=
  ⟨⟨by decide, by decide, by decide⟩,
   lastSubModIdx_tracks_last_completion scSubB0 scSt3.db scSt3.clock
     ((lookupKey scSt3.db "01020304").getD {}) (by decide) (by decide)
     c4NodeAfter (by decide)⟩

/-! ## C6 — multi-table write atomicity -/

/-- C6 counterexample: the CRC-drift snapshot path writes both
`node_inventory` and `node_history`, yet its effects contain those writes as
two separate auto-committed statements and no transaction at all — a failure
between them leaves the tables in a partial state. -/
theorem multi_table_tx_counterexample :
    histInserts scDrift.effects ≠ [] ∧ invUpserts scDrift.effects ≠ [] ∧
      txEffects scDrift.effects = [] := by
  decide

/-- C6 (amended: only the config-writer persist path is transactional; the
CRC-drift snapshot path runs its inventory upsert and history insert as two
separate auto-committed statements).  `recordNodeSnapshot` always produces
exactly the two bare statements, while `handleNodeConfigUpdate` never emits
a top-level history insert and every transaction it emits is exactly the
inventory-upsert/history-insert pair. -/
theorem multi_table_write_transactionality :
    (∀ (nodeId : String) (node : Node) (clock : Nat),
      recordNodeSnapshot nodeId node clock =
        ([Effect.dbStmt (.invUpsert nodeId (invRowOf node)),
          Effect.dbStmt (.histInsert nodeId
            ⟨node.nodeTypeMsg, node.subModCnt, node.configCrc, clock,
              node.subModule⟩)],
         clock + 1)) ∧
    (∀ (db : NodeMap) (clock : Nat) (req : ConfigUpdateReq),
      histInserts (handleNodeConfigUpdate db clock req).effects = [] ∧
      ∀ ws, Effect.dbTx ws ∈ (handleNodeConfigUpdate db clock req).effects →
        ∃ inv hist,
          ws = [DbWrite.invUpsert req.nodeId inv,
                DbWrite.histInsert req.nodeId hist]) := by
  refine ⟨fun _ _ _ => rfl, fun db clock req => ?_⟩
  cases h1 : lookupKey db req.nodeId with
  | none => simp [handleNodeConfigUpdate, h1, histInserts]
  | some nodeData =>
    cases h2 : lookupKey nodeData.subModule req.subModIdx with
    | none => simp [handleNodeConfigUpdate, h1, h2, histInserts]
    | some targetSub =>
      simp only [handleNodeConfigUpdate, h1, h2]
      split_ifs <;>
        refine ⟨by simp [histInserts], fun ws hws => ?_⟩ <;>
        simp at hws <;>
        first
          | exact ⟨_, _, hws⟩
          | exact ⟨_, _, hws.symm⟩

/-- Witness for C6's amended theorem: the change request `cfgReqChg`
produces exactly one transaction, holding the inventory upsert and the
history insert for its node. -/
theorem multi_table_write_transactionality_witness :
    Effect.dbTx cfgTx ∈ (handleNodeConfigUpdate noopDb 3 cfgReqChg).effects ∧
    ∃ inv hist, cfgTx = [DbWrite.invUpsert cfgReqChg.nodeId inv,
      DbWrite.histInsert cfgReqChg.nodeId hist] :=
  ⟨by decide,
   (multi_table_write_transactionality.2 noopDb 3 cfgReqChg).2 cfgTx (by decide)⟩

/-! ## C7 — interview reset -/

/-- C7: after a `REQUEST_NODE_INTERVIEW` for a node present in the
inventory, the node's sub-module map is empty, `lastSubModIdx` is 0,
`introComplete` is false, a `DATABASE_UPDATE` broadcast of the cleared
inventory was sent, and exactly one `REQ_NODE_INTRO` frame whose first four
payload bytes are the node's NodeId bytes was enqueued. -/
theorem interview_reset (db : NodeMap) (bs : List Nat) (node : Node)
    (hlen : bs.length = 4) (hbytes : ∀ b ∈ bs, b < 256)
    (hnode : lookupKey db (toHexString bs) = some node) :
    lookupKey (handleRequestNodeInterview db (toHexString bs)).1 (toHexString bs) =
      some { node with subModule := [], lastSubModIdx := some 0, introComplete := false } ∧
    (handleRequestNodeInterview db (toHexString bs)).2 =
      [.wsBroadcast "DATABASE_UPDATE",
       .canSend .reqNodeIntro (bs ++ [0, 0, 0, 0])] := by
  obtain ⟨b0, b1, b2, b3, rfl⟩ : ∃ b0 b1 b2 b3, bs = [b0, b1, b2, b3] := by
    rcases bs with _ | ⟨b0, _ | ⟨b1, _ | ⟨b2, _ | ⟨b3, _ | ⟨b4, tl⟩⟩⟩⟩⟩ <;>
      simp at hlen
    exact ⟨b0, b1, b2, b3, rfl⟩
  have hne : toHexString [b0, b1, b2, b3] ≠ "" := by
    rw [ne_eq, String.ext_iff]
    simp [toHexString, byteToHexChars]
  rw [handleRequestNodeInterview, if_neg hne, hnode]
  refine ⟨lookupKey_setKey _ _ _, ?_⟩
  rw [writeCanMessageBE, hexStringToByteArray_toHexString _ hbytes]
  rfl

/-- Witness for C7: re-interviewing the scenario node. -/
theorem interview_reset_witness :
    (([1, 2, 3, 4] : List Nat).length = 4 ∧
      (∀ b ∈ ([1, 2, 3, 4] : List Nat), b < 256) ∧
      lookupKey noopDb (toHexString [1, 2, 3, 4]) = some noopNode) ∧
    lookupKey (handleRequestNodeInterview noopDb (toHexString [1, 2, 3, 4])).1
        (toHexString [1, 2, 3, 4]) =
      some { noopNode with subModule := [], lastSubModIdx := some 0, introComplete := false } ∧
    (handleRequestNodeInterview noopDb (toHexString [1, 2, 3, 4])).2 =
      [.wsBroadcast "DATABASE_UPDATE",
       .canSend .reqNodeIntro [1, 2, 3, 4, 0, 0, 0, 0]] :=
  ⟨⟨by decide, by decide, by decide⟩,
   interview_reset noopDb [1, 2, 3, 4] noopNode (by decide) (by decide) (by decide)⟩

end CanBusApp
